import Mathlib

/-!
Shallow embedding of the voiceflow-stripe-api service.

The service (an Express app) exposes two endpoints:
* `POST /api/check-subscription` — looks up a subscription row in the
  `subscriptions` table and reports whether it is currently active;
* `POST /webhook/stripe` — verifies a Stripe webhook signature and mirrors
  subscription state into the table via four per-event-type handlers.

Modelling conventions:
* Timestamps are epoch milliseconds as `Int` (the JS code compares `Date`
  objects, which compare by epoch milliseconds; Stripe subscription objects
  carry epoch seconds, converted by the code with `* 1000`).
* The Supabase table is a `List SubscriptionRecord`; the client's keyed
  upsert/update calls are modelled as the corresponding list transformations.
* A JS `async` call that may reject is modelled by an explicit outcome value
  (`StoreResult`, `CustomerResult`); the Supabase query builder additionally
  resolves with a `{ data, error }` pair, modelled by `StoreResult.resolved`.
-/

namespace VoiceflowStripe

/-- One row of the `subscriptions` table. Fields follow the object built in
`handleSubscriptionUpdate` and the columns read by `/api/check-subscription`. -/
structure SubscriptionRecord where
  user_id : String
  email : String
  stripe_customer_id : String
  stripe_subscription_id : String
  subscription_tier : String
  status : String
  current_period_end : Int
  updated_at : Int
deriving Repr, DecidableEq

/-- The `subscriptions` table held by the external store. -/
abbrev Store := List SubscriptionRecord

/-- JS truthiness of an optional string field of the request body:
`undefined` and the empty string are falsy, every other string is truthy. -/
def jsTruthy : Option String → Bool
  | none => false
  | some s => s != ""

/-- Body of a `POST /api/check-subscription` request: `{ userId?, email? }`. -/
structure CheckRequest where
  userId : Option String
  email : Option String
deriving Repr, DecidableEq

/-- The filter the handler attaches to the Supabase query: `eq('user_id', userId)`
when `userId` is truthy, otherwise `eq('email', email)`. -/
inductive QueryKey where
  | byUserId (v : String)
  | byEmail (v : String)
deriving Repr, DecidableEq

/-- Key selection of the handler: `if (userId) ... else ...`. -/
def queryKeyOf (req : CheckRequest) : QueryKey :=
  if jsTruthy req.userId then .byUserId (req.userId.getD "")
  else .byEmail (req.email.getD "")

/-- Outcome of `await query.single()`: the promise either resolves with a
`{ data, error }` pair (Supabase reports "no rows" and query errors through
the `error` field) or rejects with an exception carrying a message. -/
inductive StoreResult where
  | resolved (data : Option SubscriptionRecord) (error : Bool)
  | exn (msg : String)
deriving Repr, DecidableEq

/-- JSON body of a `/api/check-subscription` response, one constructor per
`res.json(...)` literal in the handler. `defaultBody` is the literal
`{ hasSubscription: false, subscriptionTier: "free", status: "inactive",
message: "No active subscription found" }`. -/
inductive CheckBody where
  | errorBody (error : String) (message : String)
  | defaultBody
  | subBody (hasSubscription : Bool) (subscriptionTier : String) (status : String)
      (userId : String) (email : String) (currentPeriodEnd : Int)
      (stripeCustomerId : String)
deriving Repr, DecidableEq

/-- The `hasSubscription` field of a response body, when the body has one. -/
def bodyHasSubscription : CheckBody → Option Bool
  | .errorBody _ _ => none
  | .defaultBody => some false
  | .subBody h _ _ _ _ _ _ => some h

/-- The `subscriptionTier` field of a response body, when the body has one. -/
def bodySubscriptionTier : CheckBody → Option String
  | .errorBody _ _ => none
  | .defaultBody => some "free"
  | .subBody _ t _ _ _ _ _ => some t

/-- HTTP response of the query endpoint. -/
structure CheckResponse where
  httpStatus : Nat
  body : CheckBody
deriving Repr, DecidableEq

/-- The `POST /api/check-subscription` handler. `dbQuery` is the external
store: outcome of `await query.single()` for each key. `now` is the instant
`new Date()` is evaluated. Besides the response, returns whether the store
was queried at all (`false` only on the missing-parameter early return). -/
def checkSubscription (req : CheckRequest) (dbQuery : QueryKey → StoreResult)
    (now : Int) : CheckResponse × Bool :=
  if !jsTruthy req.userId && !jsTruthy req.email then
    ({ httpStatus := 400,
       body := .errorBody "Missing parameter" "Please provide either userId or email" },
     false)
  else
    match dbQuery (queryKeyOf req) with
    | .exn msg =>
        ({ httpStatus := 500, body := .errorBody "Internal server error" msg }, true)
    | .resolved data error =>
        match data, error with
        | some r, false =>
            let isActive := r.status == "active"
            let isExpired := decide (r.current_period_end < now)
            ({ httpStatus := 200,
               body := .subBody (isActive && !isExpired)
                 (if isActive && !isExpired then r.subscription_tier else "free")
                 r.status r.user_id r.email r.current_period_end
                 r.stripe_customer_id }, true)
        | _, _ =>
            ({ httpStatus := 200, body := .defaultBody }, true)

/-- The price-id environment configuration: `PRICE_ID_BASIC`, `PRICE_ID_PRO`,
`PRICE_ID_PREMIUM`. -/
structure Env where
  PRICE_ID_BASIC : String
  PRICE_ID_PRO : String
  PRICE_ID_PREMIUM : String
deriving Repr, DecidableEq

/-- Lookup in the `TIER_MAPPING` object literal. The object is built with the
three computed keys in order basic, pro, premium, so on a key collision the
later assignment wins: the last matching key decides the value. -/
def TIER_MAPPING (env : Env) (priceId : String) : Option String :=
  if priceId = env.PRICE_ID_PREMIUM then some "premium"
  else if priceId = env.PRICE_ID_PRO then some "pro"
  else if priceId = env.PRICE_ID_BASIC then some "basic"
  else none

/-- A Stripe customer object; only the `email` field is read. -/
structure Customer where
  email : String
deriving Repr, DecidableEq

/-- One entry of `subscription.items.data`; only `price.id` is read. -/
structure SubItem where
  price_id : String
deriving Repr, DecidableEq

/-- The fields of a Stripe subscription object read by the handlers.
`current_period_end` is in epoch seconds, as Stripe delivers it. -/
structure Subscription where
  id : String
  customer : String
  status : String
  current_period_end : Int
  items : List SubItem
deriving Repr, DecidableEq

/-- The fields of a Stripe invoice object read by the handlers. -/
structure Invoice where
  customer : String
deriving Repr, DecidableEq

/-- Outcome of `await stripe.customers.retrieve(...)`: resolves with a
customer or rejects. -/
inductive CustomerResult where
  | ok (c : Customer)
  | exn
deriving Repr, DecidableEq

/-- Outcomes of the downstream calls a webhook handler may make: the
customer lookup, and whether the store write succeeds (Supabase reports a
failed write by resolving with a non-null `error`; a failed write leaves the
table unchanged). -/
structure DownstreamEnv where
  customerResult : CustomerResult
  storeOk : Bool
deriving Repr, DecidableEq

/-- A verified Stripe event, as dispatched by the `switch (event.type)`:
each handled type together with its `event.data.object` payload, plus a
catch-all for every other type string. -/
inductive StripeEvent where
  | subscriptionCreated (s : Subscription)
  | subscriptionUpdated (s : Subscription)
  | subscriptionDeleted (s : Subscription)
  | invoicePaymentSucceeded (i : Invoice)
  | invoicePaymentFailed (i : Invoice)
  | otherEvent (type : String)
deriving Repr, DecidableEq

/-- The Supabase keyed upsert `upsert(rec, { onConflict: 'user_id' })`:
replace the rows sharing `rec`'s `user_id`, or append `rec` if none exists. -/
def upsert (store : Store) (rec : SubscriptionRecord) : Store :=
  if store.any (fun r => r.user_id = rec.user_id) then
    store.map (fun r => if r.user_id = rec.user_id then rec else r)
  else
    store ++ [rec]

/-- The record object built by `handleSubscriptionUpdate` for the first line
item `item` of subscription `s`: email doubles as `user_id`, the tier comes
from `TIER_MAPPING[priceId] || 'unknown'`, and Stripe's epoch-second period
end is converted to milliseconds. -/
def mkSubscriptionData (env : Env) (s : Subscription) (customer : Customer)
    (item : SubItem) (now : Int) : SubscriptionRecord :=
  { user_id := customer.email
    email := customer.email
    stripe_customer_id := s.customer
    subscription_tier := (TIER_MAPPING env item.price_id).getD "unknown"
    status := s.status
    stripe_subscription_id := s.id
    current_period_end := s.current_period_end * 1000
    updated_at := now }

/-- `handleSubscriptionUpdate`: retrieve the customer, read
`subscription.items.data[0].price.id` (an empty item list makes that access
throw), build the record and upsert it. The handler's own try/catch swallows
a rejected customer lookup or the items access throwing, leaving the store
untouched; a write the store reports as failed also leaves it unchanged. -/
def handleSubscriptionUpdate (env : Env) (s : Subscription)
    (cust : CustomerResult) (storeOk : Bool) (now : Int) (store : Store) : Store :=
  match cust with
  | .exn => store
  | .ok customer =>
      match s.items.head? with
      | none => store
      | some item =>
          if storeOk then upsert store (mkSubscriptionData env s customer item now)
          else store

/-- `handleSubscriptionDeleted`: retrieve the customer (a rejection is
swallowed before any write), then update every row whose
`stripe_customer_id` matches, setting status `canceled`, tier `free` and a
fresh `updated_at`. -/
def handleSubscriptionDeleted (s : Subscription) (cust : CustomerResult)
    (storeOk : Bool) (now : Int) (store : Store) : Store :=
  match cust with
  | .exn => store
  | .ok _ =>
      if storeOk then
        store.map (fun r =>
          if r.stripe_customer_id = s.customer then
            { r with status := "canceled", subscription_tier := "free",
                     updated_at := now }
          else r)
      else store

/-- `handlePaymentFailed`: update every row whose `stripe_customer_id`
matches the invoice's customer, setting status `past_due` and a fresh
`updated_at`; no other column appears in the update object. -/
def handlePaymentFailed (i : Invoice) (storeOk : Bool) (now : Int)
    (store : Store) : Store :=
  if storeOk then
    store.map (fun r =>
      if r.stripe_customer_id = i.customer then
        { r with status := "past_due", updated_at := now }
      else r)
  else store

/-- JSON or text body of a `/webhook/stripe` response. -/
inductive WebhookBody where
  | textBody (s : String)
  | receivedTrue
  | processingFailed
deriving Repr, DecidableEq

/-- HTTP response of the webhook endpoint. -/
structure WebhookResponse where
  httpStatus : Nat
  body : WebhookBody
deriving Repr, DecidableEq

/-- The `POST /webhook/stripe` handler. `sigResult` is the outcome of
`stripe.webhooks.constructEvent`: a verified event, or a thrown error with a
message, answered `400 Webhook Error: <message>` before any branch runs.
On a verified event the matching per-type handler runs (each swallows its
own downstream faults), `invoice.payment_succeeded` and unhandled types
change nothing, and the response is `200 { received: true }`. The outer
catch answering 500 is unreachable because every handler catches its
faults internally. Returns the response and the resulting store. -/
def webhookStripe (env : Env) (sigResult : Except String StripeEvent)
    (ds : DownstreamEnv) (now : Int) (store : Store) :
    WebhookResponse × Store :=
  match sigResult with
  | .error msg =>
      ({ httpStatus := 400, body := .textBody ("Webhook Error: " ++ msg) }, store)
  | .ok event =>
      let newStore :=
        match event with
        | .subscriptionCreated s =>
            handleSubscriptionUpdate env s ds.customerResult ds.storeOk now store
        | .subscriptionUpdated s =>
            handleSubscriptionUpdate env s ds.customerResult ds.storeOk now store
        | .subscriptionDeleted s =>
            handleSubscriptionDeleted s ds.customerResult ds.storeOk now store
        | .invoicePaymentSucceeded _ => store
        | .invoicePaymentFailed i =>
            handlePaymentFailed i ds.storeOk now store
        | .otherEvent _ => store
      ({ httpStatus := 200, body := .receivedTrue }, newStore)

/-- A concrete row used to instantiate the theorems at concrete inputs. -/
def sampleRecord : SubscriptionRecord :=
  { user_id := "u1"
    email := "u1@example.com"
    stripe_customer_id := "cus_1"
    stripe_subscription_id := "sub_1"
    subscription_tier := "premium"
    status := "active"
    current_period_end := 100
    updated_at := 0 }

/-- A concrete price-id configuration. -/
def sampleEnv : Env :=
  { PRICE_ID_BASIC := "price_b", PRICE_ID_PRO := "price_p",
    PRICE_ID_PREMIUM := "price_m" }

/-- A concrete Stripe subscription object for `cus_1`. -/
def sampleSubscription : Subscription :=
  { id := "sub_1", customer := "cus_1", status := "active",
    current_period_end := 100, items := [⟨"price_m"⟩] }

/-- A concrete Stripe invoice object for `cus_1`. -/
def sampleInvoice : Invoice := { customer := "cus_1" }

/-- A concrete Stripe customer object. -/
def sampleCustomer : Customer := { email := "u1@example.com" }

/-- C8: a query request with neither a (truthy) `userId` nor a (truthy)
`email` is answered 400 with the missing-parameter error body, and the
store is never queried (the returned flag is `false`, and the response does
not depend on `dbQuery` at all). -/
theorem missing_params_400_no_store_access
    (req : CheckRequest) (dbQuery : QueryKey → StoreResult) (now : Int)
    (h : ¬ jsTruthy req.userId ∧ ¬ jsTruthy req.email) :
    checkSubscription req dbQuery now =
      ({ httpStatus := 400,
         body := .errorBody "Missing parameter"
           "Please provide either userId or email" },
       false) := by
  obtain ⟨h1, h2⟩ := h
  simp only [Bool.not_eq_true] at h1 h2
  simp [checkSubscription, h1, h2]

/-- Witness for C8 at the empty request body. -/
theorem missing_params_400_no_store_access_witness :
    (¬ jsTruthy (none : Option String) ∧ ¬ jsTruthy (none : Option String)) ∧
    checkSubscription ⟨none, none⟩ (fun _ => .resolved none false) 0 =
      ({ httpStatus := 400,
         body := .errorBody "Missing parameter"
           "Please provide either userId or email" },
       false) :=
  ⟨by decide,
   missing_params_400_no_store_access ⟨none, none⟩
     (fun _ => .resolved none false) 0 (by decide)⟩

/-- C7: when the store lookup resolves with no row (`data` null, with or
without an accompanying Supabase error object), the endpoint answers 200
with the default body: `hasSubscription: false`, `subscriptionTier: "free"`. -/
theorem store_miss_default_response
    (req : CheckRequest) (dbQuery : QueryKey → StoreResult) (now : Int) (e : Bool)
    (hp : jsTruthy req.userId ∨ jsTruthy req.email)
    (hq : dbQuery (queryKeyOf req) = .resolved none e) :
    (checkSubscription req dbQuery now).1.httpStatus = 200 ∧
    (checkSubscription req dbQuery now).1.body = .defaultBody ∧
    bodyHasSubscription (checkSubscription req dbQuery now).1.body = some false ∧
    bodySubscriptionTier (checkSubscription req dbQuery now).1.body = some "free" := by
  have hg : (!jsTruthy req.userId && !jsTruthy req.email) = false := by
    rcases hp with h | h <;> simp [h]
  cases e <;>
    simp [checkSubscription, hg, hq, bodyHasSubscription, bodySubscriptionTier]

/-- Witness for C7: lookup by email finding no row. -/
theorem store_miss_default_response_witness :
    (jsTruthy (none : Option String) ∨ jsTruthy (some "a@b.c")) ∧
    ((fun _ : QueryKey => StoreResult.resolved none false)
        (queryKeyOf ⟨none, some "a@b.c"⟩) = .resolved none false) ∧
    ((checkSubscription ⟨none, some "a@b.c"⟩
        (fun _ => .resolved none false) 0).1.httpStatus = 200 ∧
     (checkSubscription ⟨none, some "a@b.c"⟩
        (fun _ => .resolved none false) 0).1.body = .defaultBody ∧
     bodyHasSubscription (checkSubscription ⟨none, some "a@b.c"⟩
        (fun _ => .resolved none false) 0).1.body = some false ∧
     bodySubscriptionTier (checkSubscription ⟨none, some "a@b.c"⟩
        (fun _ => .resolved none false) 0).1.body = some "free") :=
  ⟨by decide, rfl,
   store_miss_default_response ⟨none, some "a@b.c"⟩
     (fun _ => .resolved none false) 0 false (by decide) rfl⟩

/-- C2: when the awaited store call rejects (fails rather than resolving
with a no-row result), the endpoint answers 500 with the internal-error
body, which carries no subscription fields at all. -/
theorem store_fault_500_no_partial_body
    (req : CheckRequest) (dbQuery : QueryKey → StoreResult) (now : Int)
    (msg : String)
    (hp : jsTruthy req.userId ∨ jsTruthy req.email)
    (hq : dbQuery (queryKeyOf req) = .exn msg) :
    (checkSubscription req dbQuery now).1 =
      { httpStatus := 500, body := .errorBody "Internal server error" msg } ∧
    bodyHasSubscription (checkSubscription req dbQuery now).1.body = none ∧
    bodySubscriptionTier (checkSubscription req dbQuery now).1.body = none := by
  have hg : (!jsTruthy req.userId && !jsTruthy req.email) = false := by
    rcases hp with h | h <;> simp [h]
  simp [checkSubscription, hg, hq, bodyHasSubscription, bodySubscriptionTier]

/-- Witness for C2: lookup by userId whose store call rejects. -/
theorem store_fault_500_no_partial_body_witness :
    (jsTruthy (some "u1") ∨ jsTruthy (none : Option String)) ∧
    ((fun _ : QueryKey => StoreResult.exn "boom")
        (queryKeyOf ⟨some "u1", none⟩) = .exn "boom") ∧
    ((checkSubscription ⟨some "u1", none⟩ (fun _ => .exn "boom") 0).1 =
       { httpStatus := 500, body := .errorBody "Internal server error" "boom" } ∧
     bodyHasSubscription
       (checkSubscription ⟨some "u1", none⟩ (fun _ => .exn "boom") 0).1.body = none ∧
     bodySubscriptionTier
       (checkSubscription ⟨some "u1", none⟩ (fun _ => .exn "boom") 0).1.body = none) :=
  ⟨by decide, rfl,
   store_fault_500_no_partial_body ⟨some "u1", none⟩
     (fun _ => .exn "boom") 0 "boom" (by decide) rfl⟩

/-- C1 counterexample: the claim says `hasSubscription` is true iff the
status is `active` and `current_period_end` is strictly in the future, and
that otherwise the tier is forced to `free`. At `current_period_end = now`
(the code tests expiry with `currentPeriodEnd < new Date()`), the response
has `hasSubscription: true` and the stored tier `premium`, yet
`current_period_end` is not strictly in the future. -/
theorem check_active_strict_future_counterexample :
    bodyHasSubscription (checkSubscription ⟨some "u1", none⟩
        (fun _ => .resolved (some sampleRecord) false) 100).1.body = some true ∧
    ¬ (sampleRecord.status = "active" ∧
        (100 : Int) < sampleRecord.current_period_end) ∧
    bodySubscriptionTier (checkSubscription ⟨some "u1", none⟩
        (fun _ => .resolved (some sampleRecord) false) 100).1.body
      = some "premium" := by
  refine ⟨by decide, by decide, by decide⟩

/-- C1 (amended): for a query request matching a stored record,
`hasSubscription` is true iff the status is `"active"` and
`current_period_end` is not strictly in the past (`now ≤ current_period_end`);
when that conjunction fails the returned tier is `"free"` regardless of the
stored tier, and when it holds the returned tier is the stored tier. -/
theorem check_matching_record_active_iff
    (req : CheckRequest) (dbQuery : QueryKey → StoreResult)
    (r : SubscriptionRecord) (now : Int)
    (hp : jsTruthy req.userId ∨ jsTruthy req.email)
    (hq : dbQuery (queryKeyOf req) = .resolved (some r) false) :
    (checkSubscription req dbQuery now).1.httpStatus = 200 ∧
    (bodyHasSubscription (checkSubscription req dbQuery now).1.body = some true ↔
      (r.status = "active" ∧ now ≤ r.current_period_end)) ∧
    (¬ (r.status = "active" ∧ now ≤ r.current_period_end) →
      bodySubscriptionTier (checkSubscription req dbQuery now).1.body
        = some "free") ∧
    ((r.status = "active" ∧ now ≤ r.current_period_end) →
      bodySubscriptionTier (checkSubscription req dbQuery now).1.body
        = some r.subscription_tier) := by
  have hg : (!jsTruthy req.userId && !jsTruthy req.email) = false := by
    rcases hp with h | h <;> simp [h]
  have hb : ((r.status == "active") && !(decide (r.current_period_end < now)))
      = true ↔ (r.status = "active" ∧ now ≤ r.current_period_end) := by
    simp [not_lt]
  rcases hcond : ((r.status == "active") && !(decide (r.current_period_end < now)))
    with hfalse | htrue
  · have hnot : ¬ (r.status = "active" ∧ now ≤ r.current_period_end) := by
      rw [← hb, hcond]; simp
    simp [checkSubscription, hg, hq, bodyHasSubscription, bodySubscriptionTier,
      hcond, hnot]
  · have hyes : r.status = "active" ∧ now ≤ r.current_period_end := by
      rw [← hb]; exact hcond
    simp [checkSubscription, hg, hq, bodyHasSubscription, bodySubscriptionTier,
      hcond, hyes]

/-- Witness for amended C1: an active record queried before its period end. -/
theorem check_matching_record_active_iff_witness :
    (jsTruthy (some "u1") ∨ jsTruthy (none : Option String)) ∧
    ((fun _ : QueryKey => StoreResult.resolved (some sampleRecord) false)
        (queryKeyOf ⟨some "u1", none⟩) = .resolved (some sampleRecord) false) ∧
    ((checkSubscription ⟨some "u1", none⟩
        (fun _ => .resolved (some sampleRecord) false) 50).1.httpStatus = 200 ∧
     (bodyHasSubscription (checkSubscription ⟨some "u1", none⟩
          (fun _ => .resolved (some sampleRecord) false) 50).1.body = some true ↔
        (sampleRecord.status = "active" ∧
          (50 : Int) ≤ sampleRecord.current_period_end)) ∧
     (¬ (sampleRecord.status = "active" ∧
          (50 : Int) ≤ sampleRecord.current_period_end) →
        bodySubscriptionTier (checkSubscription ⟨some "u1", none⟩
          (fun _ => .resolved (some sampleRecord) false) 50).1.body
          = some "free") ∧
     ((sampleRecord.status = "active" ∧
          (50 : Int) ≤ sampleRecord.current_period_end) →
        bodySubscriptionTier (checkSubscription ⟨some "u1", none⟩
          (fun _ => .resolved (some sampleRecord) false) 50).1.body
          = some sampleRecord.subscription_tier)) :=
  ⟨by decide, rfl,
   check_matching_record_active_iff ⟨some "u1", none⟩
     (fun _ => .resolved (some sampleRecord) false) sampleRecord 50
     (by decide) rfl⟩

/-- C6: a webhook request whose signature verification throws with message
`msg` is answered 400 with body `Webhook Error: <msg>`, and the store is
returned unchanged — no event branch runs. -/
theorem invalid_signature_400_no_mutation
    (env : Env) (msg : String) (ds : DownstreamEnv) (now : Int) (store : Store) :
    webhookStripe env (.error msg) ds now store =
      ({ httpStatus := 400, body := .textBody ("Webhook Error: " ++ msg) },
       store) := rfl

/-- C3: for every verified event, whatever the outcomes of the downstream
customer-lookup and store calls (`ds` ranges over success and both failure
modes), the response is `200 { received: true }` — identical to the success
case, so the provider is never told to retry. -/
theorem verified_event_always_200
    (env : Env) (ev : StripeEvent) (ds : DownstreamEnv) (now : Int)
    (store : Store) :
    (webhookStripe env (.ok ev) ds now store).1 =
      { httpStatus := 200, body := .receivedTrue } := by
  cases ev <;> rfl

/-- C4: a `customer.subscription.deleted` event whose customer lookup and
store write succeed turns every stored row of that customer into the same
row with status `"canceled"`, tier `"free"` and a fresh `updated_at`, and
the table keeps its length — the row is updated, not removed. -/
theorem subscription_deleted_cancels_record
    (env : Env) (s : Subscription) (c : Customer) (now : Int) (store : Store)
    (r : SubscriptionRecord) (hr : r ∈ store)
    (hm : r.stripe_customer_id = s.customer) :
    ({ r with
        status := "canceled", subscription_tier := "free",
        updated_at := now }
      ∈ (webhookStripe env (.ok (.subscriptionDeleted s)) ⟨.ok c, true⟩
          now store).2) ∧
    (webhookStripe env (.ok (.subscriptionDeleted s)) ⟨.ok c, true⟩
        now store).2.length = store.length := by
  constructor
  · simp only [webhookStripe, handleSubscriptionDeleted, if_pos]
    exact List.mem_map.mpr ⟨r, hr, by simp [hm]⟩
  · simp [webhookStripe, handleSubscriptionDeleted]

/-- Witness for C4 on a one-row table holding `sampleRecord`. -/
theorem subscription_deleted_cancels_record_witness :
    (sampleRecord ∈ [sampleRecord] ∧
      sampleRecord.stripe_customer_id = sampleSubscription.customer) ∧
    (({ sampleRecord with
         status := "canceled", subscription_tier := "free",
         updated_at := (7 : Int) }
       ∈ (webhookStripe sampleEnv (.ok (.subscriptionDeleted sampleSubscription))
           ⟨.ok sampleCustomer, true⟩ 7 [sampleRecord]).2) ∧
     (webhookStripe sampleEnv (.ok (.subscriptionDeleted sampleSubscription))
         ⟨.ok sampleCustomer, true⟩ 7 [sampleRecord]).2.length
       = [sampleRecord].length) :=
  ⟨⟨by decide, by decide⟩,
   subscription_deleted_cancels_record sampleEnv sampleSubscription
     sampleCustomer 7 [sampleRecord] sampleRecord (by decide) (by decide)⟩

/-- C5: an `invoice.payment_failed` event whose store write succeeds leaves,
for each stored row of that customer, a row whose status is `"past_due"`
and whose `updated_at` is fresh, with every other field equal to the
original row's. -/
theorem payment_failed_past_due_frame
    (env : Env) (i : Invoice) (cr : CustomerResult) (now : Int) (store : Store)
    (r : SubscriptionRecord) (hr : r ∈ store)
    (hm : r.stripe_customer_id = i.customer) :
    ∃ r' ∈ (webhookStripe env (.ok (.invoicePaymentFailed i)) ⟨cr, true⟩
        now store).2,
      r'.status = "past_due" ∧ r'.updated_at = now ∧
      r'.user_id = r.user_id ∧ r'.email = r.email ∧
      r'.stripe_customer_id = r.stripe_customer_id ∧
      r'.stripe_subscription_id = r.stripe_subscription_id ∧
      r'.subscription_tier = r.subscription_tier ∧
      r'.current_period_end = r.current_period_end := by
  refine ⟨{ r with status := "past_due", updated_at := now }, ?_,
    rfl, rfl, rfl, rfl, rfl, rfl, rfl, rfl⟩
  simp only [webhookStripe, handlePaymentFailed, if_pos]
  exact List.mem_map.mpr ⟨r, hr, by simp [hm]⟩

/-- Witness for C5 on a one-row table holding `sampleRecord`. -/
theorem payment_failed_past_due_frame_witness :
    (sampleRecord ∈ [sampleRecord] ∧
      sampleRecord.stripe_customer_id = sampleInvoice.customer) ∧
    (∃ r' ∈ (webhookStripe sampleEnv (.ok (.invoicePaymentFailed sampleInvoice))
        ⟨.exn, true⟩ 7 [sampleRecord]).2,
      r'.status = "past_due" ∧ r'.updated_at = (7 : Int) ∧
      r'.user_id = sampleRecord.user_id ∧ r'.email = sampleRecord.email ∧
      r'.stripe_customer_id = sampleRecord.stripe_customer_id ∧
      r'.stripe_subscription_id = sampleRecord.stripe_subscription_id ∧
      r'.subscription_tier = sampleRecord.subscription_tier ∧
      r'.current_period_end = sampleRecord.current_period_end) :=
  ⟨⟨by decide, by decide⟩,
   payment_failed_past_due_frame sampleEnv sampleInvoice .exn 7
     [sampleRecord] sampleRecord (by decide) (by decide)⟩

/-- C9: for a subscription created/updated event whose customer lookup and
store write succeed, the store receives exactly the upsert of the record
built by the handler; that record's tier is the `TIER_MAPPING` lookup of the
first line item's price id, defaulted to `"unknown"`, and in particular an
unmapped price id yields tier `"unknown"` while the upsert still happens. -/
theorem subscription_update_tier_resolution
    (env : Env) (ev : StripeEvent) (s : Subscription) (c : Customer)
    (item : SubItem) (rest : List SubItem) (now : Int) (store : Store)
    (hev : ev = .subscriptionCreated s ∨ ev = .subscriptionUpdated s)
    (hitems : s.items = item :: rest) :
    (webhookStripe env (.ok ev) ⟨.ok c, true⟩ now store).2 =
      upsert store (mkSubscriptionData env s c item now) ∧
    (mkSubscriptionData env s c item now).subscription_tier
      = (TIER_MAPPING env item.price_id).getD "unknown" ∧
    (TIER_MAPPING env item.price_id = none →
      (mkSubscriptionData env s c item now).subscription_tier = "unknown") := by
  refine ⟨?_, rfl, ?_⟩
  · rcases hev with h | h <;> subst h <;>
      simp [webhookStripe, handleSubscriptionUpdate, hitems]
  · intro h
    simp [mkSubscriptionData, h]

/-- Witness for C9: an updated event whose price id is not in the mapping. -/
theorem subscription_update_tier_resolution_witness :
    ((StripeEvent.subscriptionUpdated
        { sampleSubscription with items := [⟨"price_other"⟩] }
      = .subscriptionCreated
          { sampleSubscription with items := [⟨"price_other"⟩] } ∨
      StripeEvent.subscriptionUpdated
        { sampleSubscription with items := [⟨"price_other"⟩] }
      = .subscriptionUpdated
          { sampleSubscription with items := [⟨"price_other"⟩] }) ∧
     ({ sampleSubscription with items := [⟨"price_other"⟩] }).items
       = ⟨"price_other"⟩ :: []) ∧
    ((webhookStripe sampleEnv
        (.ok (.subscriptionUpdated
          { sampleSubscription with items := [⟨"price_other"⟩] }))
        ⟨.ok sampleCustomer, true⟩ 7 []).2 =
      upsert [] (mkSubscriptionData sampleEnv
        { sampleSubscription with items := [⟨"price_other"⟩] }
        sampleCustomer ⟨"price_other"⟩ 7) ∧
     (mkSubscriptionData sampleEnv
        { sampleSubscription with items := [⟨"price_other"⟩] }
        sampleCustomer ⟨"price_other"⟩ 7).subscription_tier
       = (TIER_MAPPING sampleEnv "price_other").getD "unknown" ∧
     (TIER_MAPPING sampleEnv "price_other" = none →
      (mkSubscriptionData sampleEnv
        { sampleSubscription with items := [⟨"price_other"⟩] }
        sampleCustomer ⟨"price_other"⟩ 7).subscription_tier = "unknown")) :=
  ⟨⟨Or.inr rfl, rfl⟩,
   subscription_update_tier_resolution sampleEnv _
     { sampleSubscription with items := [⟨"price_other"⟩] }
     sampleCustomer ⟨"price_other"⟩ [] 7 [] (Or.inr rfl) rfl⟩

/-- C10: for a subscription created/updated event with an empty line-item
list (the `items.data[0].price` access throws) or a rejecting customer
lookup, the handler's own catch swallows the exception before any upsert:
the store is unchanged and the response is still `200 { received: true }`. -/
theorem subscription_update_fault_no_write
    (env : Env) (ev : StripeEvent) (s : Subscription) (ds : DownstreamEnv)
    (now : Int) (store : Store)
    (hev : ev = .subscriptionCreated s ∨ ev = .subscriptionUpdated s)
    (hfault : s.items = [] ∨ ds.customerResult = .exn) :
    webhookStripe env (.ok ev) ds now store =
      ({ httpStatus := 200, body := .receivedTrue }, store) := by
  obtain ⟨cr, sw⟩ := ds
  rcases hev with h | h <;> subst h <;>
    rcases hfault with h | h <;>
    cases cr <;> simp_all [webhookStripe, handleSubscriptionUpdate]

/-- Witness for C10: an updated event with an empty line-item list. -/
theorem subscription_update_fault_no_write_witness :
    ((StripeEvent.subscriptionUpdated
        { sampleSubscription with items := [] }
      = .subscriptionCreated { sampleSubscription with items := [] } ∨
      StripeEvent.subscriptionUpdated
        { sampleSubscription with items := [] }
      = .subscriptionUpdated { sampleSubscription with items := [] }) ∧
     (({ sampleSubscription with items := [] } : Subscription).items = [] ∨
      (⟨.ok sampleCustomer, true⟩ : DownstreamEnv).customerResult = .exn)) ∧
    webhookStripe sampleEnv
        (.ok (.subscriptionUpdated { sampleSubscription with items := [] }))
        ⟨.ok sampleCustomer, true⟩ 7 [sampleRecord] =
      ({ httpStatus := 200, body := .receivedTrue }, [sampleRecord]) :=
  ⟨⟨Or.inr rfl, Or.inl rfl⟩,
   subscription_update_fault_no_write sampleEnv _
     { sampleSubscription with items := [] } ⟨.ok sampleCustomer, true⟩ 7
     [sampleRecord] (Or.inr rfl) (Or.inl rfl)⟩

end VoiceflowStripe
